import Mathlib

/-!
Verification of the chat-session / response-resolution core of a React Native
chatbot client. The definitions below are a shallow embedding of the
TypeScript sources: `src/types/index.ts` (data model), `ApiService.ts`
(remote calls and the offline mock generator), `DatabaseService.ts` (storage
operations, modelled through explicit success or failure environments) and
`ChatBotService.ts` (session manager and the single-flight response
resolver). External effects (SQLite, the network, timers) are modelled as
explicit environment values: an `Except` value stands for an awaited call
that either returns or throws, and a `Bool` flag stands for an awaited call
that either succeeds or throws.

Provenance mapping used throughout: the wire values of the `source` field of
`ChatBotResponse` are `database` / `api` / `default`, which the specification
names `local` / `remote` / `offline` respectively.
-/

namespace ChatBot

/-- Chat message, from `src/types/index.ts` (`Message`). Timestamps are
clock readings modelled as naturals; the optional `audioPath` field plays no
role in any claim and is omitted. -/
structure Message where
  id : String
  text : String
  isUser : Bool
  timestamp : Nat
  deriving DecidableEq

/-- Chat session, from `src/types/index.ts` (`ChatSession`). -/
structure ChatSession where
  id : String
  title : String
  messages : List Message
  createdAt : Nat
  updatedAt : Nat
  deriving DecidableEq

/-- Knowledge record, from `src/types/index.ts` (`DatabaseRecord`). The
created/updated timestamp strings play no role in any claim and are
omitted. -/
structure DatabaseRecord where
  id : Nat
  title : String
  content : String
  category : String
  keywords : List String
  deriving DecidableEq

/-- The `source` enum of `ChatBotResponse` in `src/types/index.ts`:
`database` | `api` | `default` (spec provenance: local / remote / offline). -/
inductive Source where
  | database
  | api
  | default
  deriving DecidableEq

/-- Resolved reply, from `src/types/index.ts` (`ChatBotResponse`).
Confidence is a rational in [0,1]. -/
structure ChatBotResponse where
  text : String
  confidence : ℚ
  source : Source
  relatedTopics : List String
  deriving DecidableEq

/-- Result of a remote call, from `src/types/index.ts` (`ApiResponse`).
The `data` payload has type `any` in the source; here it is a type
parameter. An absent field is `none` for `data` and `""` for `error`. -/
structure ApiResponse (α : Type) where
  success : Bool
  data : Option α
  message : String
  error : String
  deriving DecidableEq

/-- The shapes an `AxiosError` can take, as `ApiService.handleApiError`
distinguishes them: a server response with a status (`error.response`), a
request that got no response, network failures and timeouts included
(`error.request`), and any other thrown value with a message. -/
inductive AxiosError where
  | response (status : Nat) (dataMessage : Option String)
  | request
  | other (message : String)
  deriving DecidableEq

/-- Containment of one character list in another: true when `pat` occurs as
a contiguous run inside `s`. -/
def listContains (pat : List Char) : List Char → Bool
  | [] => pat.isEmpty
  | c :: rest => pat.isPrefixOf (c :: rest) || listContains pat rest

/-- Substring containment, the model of JavaScript
`String.prototype.includes`. -/
def strIncludes (s pat : String) : Bool :=
  listContains pat.toList s.toList

/-- ASCII lower-casing, the model of JavaScript
`String.prototype.toLowerCase` on the trigger alphabet in use. -/
def lowerStr (s : String) : String :=
  String.mk (s.toList.map Char.toLower)

/-- The greeting reply of `ApiService.generateMockResponse`
(`src/services/ApiService.ts` lines 229-236). -/
def greetingResponse : ChatBotResponse :=
  { text := "Hello! How can I help you today? I can assist you with company information and answer your questions."
    confidence := 9/10
    source := Source.default
    relatedTopics := ["greeting", "help", "assistance"] }

/-- The help reply of `ApiService.generateMockResponse` (lines 238-245). -/
def helpResponse : ChatBotResponse :=
  { text := "I can help you with:\n• Company information and policies\n• Product details\n• General inquiries\n• Voice commands\n\nJust ask me anything or use voice input!"
    confidence := 8/10
    source := Source.default
    relatedTopics := ["help", "features", "voice"] }

/-- The thanks reply of `ApiService.generateMockResponse` (lines 247-254). -/
def thanksResponse : ChatBotResponse :=
  { text := "You\x27re welcome! Is there anything else I can help you with?"
    confidence := 9/10
    source := Source.default
    relatedTopics := ["thanks", "assistance"] }

/-- The generic echo reply of `ApiService.generateMockResponse`
(lines 256-261). -/
def echoResponse (message : String) : ChatBotResponse :=
  { text := "I understand you\x27re asking about: \"" ++ message ++ "\". Let me search our database for relevant information. If you need immediate assistance, please try rephrasing your question."
    confidence := 5/10
    source := Source.default
    relatedTopics := ["search", "information"] }

/-- `ApiService.generateMockResponse` (`src/services/ApiService.ts` lines
226-262): lower-case the input, test the trigger substrings
hello-or-hi / help / thank in that order, else echo. Pure, no I/O. -/
def generateMockResponse (message : String) : ChatBotResponse :=
  let lowercaseMessage := lowerStr message
  if strIncludes lowercaseMessage "hello" || strIncludes lowercaseMessage "hi" then
    greetingResponse
  else if strIncludes lowercaseMessage "help" then
    helpResponse
  else if strIncludes lowercaseMessage "thank" then
    thanksResponse
  else
    echoResponse message

/-- `ApiService.handleApiError` (`src/services/ApiService.ts` lines 20-45):
every branch returns `success := false` with a fixed error string; the
JavaScript `error.message || fallback` is the empty-string test on
`other`. -/
def handleApiError {α : Type} : AxiosError → ApiResponse α
  | AxiosError.response status dataMessage =>
      { success := false, data := none
        message := dataMessage.getD "Server error occurred"
        error := "Server error: " ++ toString status }
  | AxiosError.request =>
      { success := false, data := none
        message := "Unable to connect to server. Please check your internet connection."
        error := "Network error" }
  | AxiosError.other msg =>
      { success := false, data := none
        message := if msg = "" then "An unexpected error occurred" else msg
        error := "Request failed" }

/-- The early return of every remote call when the connectivity precheck
fails (for example `ApiService.getChatbotResponse` lines 84-90). -/
def noConnectionResponse {α : Type} : ApiResponse α :=
  { success := false, data := none
    message := "Please check your internet connection and try again."
    error := "No internet connection" }

/-- Environment of one remote call: the awaited `NetInfo.fetch` connectivity
precheck and the awaited axios request, each of which either returns or
throws. -/
structure NetEnv (α : Type) where
  connectivity : Except AxiosError Bool
  request : Except AxiosError α

/-- The body of the `try` block shared by every public `ApiService` remote
call (for example `getChatbotResponse` lines 82-112): connectivity precheck,
early no-connection return, then the axios request with a success
envelope. -/
def apiCallBody {α : Type} (successMessage : String) (env : NetEnv α) :
    Except AxiosError (ApiResponse α) := do
  let isConnected ← env.connectivity
  if !isConnected then
    return noConnectionResponse
  else
    let d ← env.request
    return { success := true, data := some d, message := successMessage, error := "" }

/-- A public `ApiService` remote call: the `try` body with the
`catch (error) { return this.handleApiError(error) }` wrapper, so the call
itself never throws. -/
def apiCall {α : Type} (successMessage : String) (env : NetEnv α) : ApiResponse α :=
  match apiCallBody successMessage env with
  | Except.ok r => r
  | Except.error e => handleApiError e

/-- `ApiService.getChatbotResponse` (`src/services/ApiService.ts` lines
81-116). -/
def getChatbotResponse (env : NetEnv ChatBotResponse) : ApiResponse ChatBotResponse :=
  apiCall "Response generated successfully" env

/-- `ApiService.searchCompanyData` (lines 47-79), the remote search. -/
def searchCompanyDataRemote (env : NetEnv (List DatabaseRecord)) :
    ApiResponse (List DatabaseRecord) :=
  apiCall "Data retrieved successfully" env

/-- `ApiService.uploadAudioFile` (lines 118-155); the payload is the server
reply for the uploaded file. -/
def uploadAudioFile (env : NetEnv String) : ApiResponse String :=
  apiCall "Audio uploaded successfully" env

/-- `ApiService.syncLocalData` (lines 188-223); the payload carries the
synced records. -/
def syncLocalData (env : NetEnv (List DatabaseRecord)) :
    ApiResponse (List DatabaseRecord) :=
  apiCall "Data synchronized successfully" env

/-- The fixed apology of `ChatBotService.generateResponse`
(`ChatBotService.ts` lines 166-169). -/
def apologyText : String :=
  "I apologize, but I encountered an error while processing your request. Please try again."

/-- Environment of one run of the resolution pipeline: the awaited
`DatabaseService.searchCompanyData` call (which either returns the matched
records or throws, `Except.error ()`) and the remote-call environment. -/
structure ResolverEnv where
  localSearch : Except Unit (List DatabaseRecord)
  remote : NetEnv ChatBotResponse

/-- The resolution chain inside the `try` of
`ChatBotService.generateResponse` (lines 134-159): await the local search
(a throw escapes the chain), use the first candidate with confidence 0.8 and
source `database` when the result is non-empty, otherwise call
`ApiService.getChatbotResponse` and use its payload on success, otherwise
fall back to `ApiService.generateMockResponse`. -/
def resolvePipeline (userMessage : String) (env : ResolverEnv) :
    Except Unit ChatBotResponse := do
  let localResults ← env.localSearch
  match localResults with
  | bestMatch :: _ =>
      return { text := bestMatch.content
               confidence := 8/10
               source := Source.database
               relatedTopics := bestMatch.keywords }
  | [] =>
      let apiResponse := getChatbotResponse env.remote
      match apiResponse.success, apiResponse.data with
      | true, some d => return d
      | _, _ => return (generateMockResponse userMessage)

/-- The reply text one started generation hands to the assistant-turn
`sendMessage`: the pipeline reply, or the fixed apology when the pipeline
threw (the `catch` of `generateResponse`, lines 164-169). -/
def resolvedReplyText (userMessage : String) (env : ResolverEnv) : String :=
  match resolvePipeline userMessage env with
  | Except.ok r => r.text
  | Except.error _ => apologyText

/-- Environment of one `generateResponse` invocation: the pipeline
environment plus whether each of the two possible assistant-turn
`sendMessage` calls (the reply append inside `try`, the apology append
inside `catch`) completes or throws in its storage writes. -/
structure GenEnv where
  localSearch : Except Unit (List DatabaseRecord)
  remote : NetEnv ChatBotResponse
  replyAppendOk : Bool
  apologyAppendOk : Bool

/-- Observable outcome of one `generateResponse` invocation: the value of the
`isProcessing` flag when the invocation finishes, the texts of the
assistant-turn `sendMessage` calls that completed, and whether the
invocation itself ended in a rejection (a throw that escaped the
`catch`). -/
structure GenResult where
  flagAfter : Bool
  appended : List String
  propagated : Bool
  deriving DecidableEq

/-- One invocation of `ChatBotService.generateResponse` (`ChatBotService.ts`
lines 130-173), entered with the current value of `isProcessing`. The early
guard (line 131) returns without touching the flag; otherwise the flag is
set, the `try` runs the pipeline and appends the reply, the `catch` appends
the apology instead on any throw, and the `finally` (lines 170-172) clears
the flag on every one of these paths — including when the apology append
itself throws and the rejection escapes. -/
def generateResponseRun (userMessage : String) (env : GenEnv)
    (isProcessing : Bool) : GenResult :=
  if isProcessing then
    { flagAfter := isProcessing, appended := [], propagated := false }
  else
    match resolvePipeline userMessage { localSearch := env.localSearch, remote := env.remote } with
    | Except.ok response =>
        if env.replyAppendOk then
          { flagAfter := false, appended := [response.text], propagated := false }
        else if env.apologyAppendOk then
          { flagAfter := false, appended := [apologyText], propagated := false }
        else
          { flagAfter := false, appended := [], propagated := true }
    | Except.error _ =>
        if env.apologyAppendOk then
          { flagAfter := false, appended := [apologyText], propagated := false }
        else
          { flagAfter := false, appended := [], propagated := true }

/-- Scheduler-level state of `ChatBotService`: the `isProcessing` flag, the
queue of generation tasks whose `setTimeout` timer has been created and has
not yet fired, and the generations currently executing past the guard of
`generateResponse`. Generation tasks are identified by a numeric message
key. -/
structure SchedState where
  isProcessing : Bool
  pending : List Nat
  running : List Nat
  deriving DecidableEq

/-- The events that touch the scheduler state: a `sendMessage` call (which
creates a generation timer exactly when the turn is a user turn and the
flag is clear, `ChatBotService.ts` lines 123-125), the firing of the oldest
pending timer (which enters `generateResponse`: the guard and the flag
assignment on lines 131-132 run in one synchronous step), and the completion
of the running generation (whose `finally` on lines 170-172 clears the
flag). -/
inductive SchedEvent where
  | send (text : Nat) (isUser : Bool)
  | fireTimer
  | finish
  deriving DecidableEq

/-- The initial scheduler state: flag clear, nothing queued, nothing
running. -/
def initSched : SchedState :=
  { isProcessing := false, pending := [], running := [] }

/-- One scheduler transition of `ChatBotService`, per event. -/
def schedStep (st : SchedState) : SchedEvent → SchedState
  | SchedEvent.send text isUser =>
      if isUser && !st.isProcessing then { st with pending := st.pending ++ [text] }
      else st
  | SchedEvent.fireTimer =>
      match st.pending with
      | [] => st
      | text :: rest =>
          if st.isProcessing then { st with pending := rest }
          else { st with pending := rest, isProcessing := true,
                         running := st.running ++ [text] }
  | SchedEvent.finish =>
      match st.running with
      | [] => st
      | _ :: rest => { st with running := rest, isProcessing := false }

/-- The scheduler state after a sequence of events, from the initial
state. -/
def runSched (events : List SchedEvent) : SchedState :=
  events.foldl schedStep initSched

/-- Scheduler invariant: at most one generation runs, and the flag is set
exactly while one does. -/
abbrev SchedInv (st : SchedState) : Prop :=
  st.running.length ≤ 1 ∧ (st.isProcessing = true ↔ st.running ≠ [])

/-- The states visited along a trace, including the initial and the final
one. -/
def traceStates (events : List SchedEvent) : List SchedState :=
  (List.range (events.length + 1)).map fun n => runSched (events.take n)

/-- The trace of the two-message scenario: a first user message whose
generation starts, a second user message issued while that generation runs,
and the completion of the first generation. -/
def c2Trace : List SchedEvent :=
  [SchedEvent.send 1 true, SchedEvent.fireTimer, SchedEvent.send 2 true,
   SchedEvent.finish]

/-- `ChatBotService.createNewSession` (`ChatBotService.ts` lines 72-86):
fresh identifier, title defaulted when unset, empty message list, both
timestamps set to the creation instant. -/
def createNewSession (sessionId : String) (title : Option String) (now : Nat) :
    ChatSession :=
  { id := sessionId
    title := title.getD ("Chat " ++ toString now)
    messages := []
    createdAt := now
    updatedAt := now }

/-- The in-memory append of `ChatBotService.sendMessage` (lines 108-117):
construct the message with its own clock reading `tMsg` (line 113), push it
at the end of the session, and bump `updatedAt` to the later clock reading
`tUpd` (line 117). -/
def appendMessage (s : ChatSession) (msgId text : String) (isUser : Bool)
    (tMsg tUpd : Nat) : ChatSession :=
  { s with
    messages := s.messages ++ [{ id := msgId, text := text, isUser := isUser, timestamp := tMsg }]
    updatedAt := tUpd }

/-- The session states reachable through `createNewSession` and
`sendMessage` appends. The two clock hypotheses state that the wall clock
is monotone: the message timestamp of an append is taken no earlier than
the previous `updatedAt`, and `updatedAt` is read after the message
timestamp (line 117 runs after line 113). -/
inductive ReachableSession : ChatSession → Prop where
  | created (sessionId : String) (title : Option String) (now : Nat) :
      ReachableSession (createNewSession sessionId title now)
  | sent (s : ChatSession) (msgId text : String) (isUser : Bool) (tMsg tUpd : Nat)
      (hs : ReachableSession s) (hclock : s.updatedAt ≤ tMsg) (hstep : tMsg ≤ tUpd) :
      ReachableSession (appendMessage s msgId text isUser tMsg tUpd)

/-- Environment of the storage layer as `ChatBotService` sees it: whether
`DatabaseService.saveMessage` and `DatabaseService.saveChatSession`
complete, and what `DatabaseService.getChatSessions` returns (or that it
throws, `Except.error ()`). -/
structure StoreEnv where
  saveMessageOk : Bool
  saveSessionOk : Bool
  sessionsResult : Except Unit (List ChatSession)

/-- Whether a storage-backed operation ended in a propagated failure. -/
def isStoreError {α : Type} : Except Unit α → Bool
  | Except.error _ => true
  | Except.ok _ => false

/-- `ChatBotService.createNewSession` as a storage-initiating operation
(lines 72-86): the `await DatabaseService.saveChatSession` stands outside
any `try`, so a storage throw propagates to the caller. -/
def createNewSessionOp (env : StoreEnv) (sessionId : String)
    (title : Option String) (now : Nat) : Except Unit ChatSession :=
  let session := createNewSession sessionId title now
  if env.saveSessionOk then Except.ok session else Except.error ()

/-- `ChatBotService.loadSession` (lines 88-101): the whole body sits in a
`try` whose `catch` returns `null`, so a storage throw yields `none`, the
same value as a lookup miss. -/
def loadSessionOp (env : StoreEnv) (sessionId : String) :
    Except Unit (Option ChatSession) :=
  match env.sessionsResult with
  | Except.ok sessions => Except.ok (sessions.find? fun s => s.id == sessionId)
  | Except.error _ => Except.ok none

/-- The storage writes of `ChatBotService.sendMessage` (lines 119-120):
`saveMessage` then `saveChatSession`, neither guarded by a `try`, after the
in-memory append. A throw of either propagates to the caller. -/
def sendMessageStorage (env : StoreEnv) (s : ChatSession) (msgId text : String)
    (isUser : Bool) (tMsg tUpd : Nat) : Except Unit ChatSession :=
  let s2 := appendMessage s msgId text isUser tMsg tUpd
  if !env.saveMessageOk then Except.error ()
  else if !env.saveSessionOk then Except.error ()
  else Except.ok s2

/-- `ChatBotService.getAllSessions` (lines 211-213): a direct
`DatabaseService.getChatSessions` call with no `try`, so a storage throw
propagates. -/
def getAllSessionsOp (env : StoreEnv) : Except Unit (List ChatSession) :=
  env.sessionsResult

/-- Length of an appended string is the sum of the lengths. -/
theorem strLength_append (a b : String) : (a ++ b).length = a.length + b.length := by
  rcases a with ⟨da⟩
  rcases b with ⟨db⟩
  exact List.length_append da db

/-- One scheduler step preserves the single-flight invariant. -/
theorem schedStep_inv (st : SchedState) (e : SchedEvent) (h : SchedInv st) :
    SchedInv (schedStep st e) := by
  obtain ⟨hlen, hiff⟩ := h
  cases e with
  | send text isUser =>
    simp only [schedStep]
    split
    · exact ⟨hlen, hiff⟩
    · exact ⟨hlen, hiff⟩
  | fireTimer =>
    simp only [schedStep]
    split
    · exact ⟨hlen, hiff⟩
    · split
      · exact ⟨hlen, hiff⟩
      · next hproc =>
        have hrun : st.running = [] := by
          by_contra hne
          exact hproc (hiff.mpr hne)
        refine ⟨?_, ?_⟩
        · simp [hrun]
        · simp [hrun]
  | finish =>
    simp only [schedStep]
    split
    · exact ⟨hlen, hiff⟩
    · next x rest hr =>
      have hrest : rest = [] := by
        rw [hr] at hlen
        simpa using hlen
      refine ⟨?_, ?_⟩
      · simp [hrest]
      · simp [hrest]

/-- The single-flight invariant holds along every event sequence. -/
theorem schedRun_inv (events : List SchedEvent) :
    ∀ st : SchedState, SchedInv st → SchedInv (events.foldl schedStep st) := by
  induction events with
  | nil => exact fun st h => h
  | cons e rest ih => exact fun st h => ih _ (schedStep_inv st e h)

/-- C1: whenever the local search returns at least one candidate, the
resolver builds the reply from the first candidate — text is that record
content, confidence exactly 0.8, source `database` (spec provenance
`local`), related topics the record keywords — for every remote environment
(availability and connectivity are irrelevant); and the started generation
appends exactly that text. -/
theorem c1_local_match_reply :
    ∀ (msg : String) (bestMatch : DatabaseRecord) (rest : List DatabaseRecord)
      (remote : NetEnv ChatBotResponse),
      resolvePipeline msg { localSearch := Except.ok (bestMatch :: rest), remote := remote }
          = Except.ok { text := bestMatch.content
                        confidence := 8/10
                        source := Source.database
                        relatedTopics := bestMatch.keywords } ∧
      (generateResponseRun msg
          { localSearch := Except.ok (bestMatch :: rest), remote := remote,
            replyAppendOk := true, apologyAppendOk := true } false).appended
          = [bestMatch.content] :=
  fun _ _ _ _ => ⟨rfl, rfl⟩

/-- C2 (counterexample): in the trace where user message 1 starts its
generation and user message 2 is sent while that generation is running
(the flag is set at that point), no generation for message 2 is ever
scheduled or run at any state of the trace — not even after the first
generation completes and the flag clears. -/
theorem c2_second_generation_never_scheduled_counterexample :
    (runSched (c2Trace.take 2)).isProcessing = true ∧
    (runSched c2Trace).isProcessing = false ∧
    ((traceStates c2Trace).all fun st =>
        !(st.pending.contains 2 || st.running.contains 2)) = true := by
  decide

/-- C2 (amended): no two generations ever run concurrently (at most one
generation is executing in every reachable scheduler state), and a user
`sendMessage` issued while the in-flight flag is set schedules no
generation at all — the scheduler state is left unchanged, so the dropped
message never gets a generation task. -/
theorem c2_single_flight_amended :
    (∀ events : List SchedEvent, ((runSched events).running).length ≤ 1) ∧
    (∀ (st : SchedState) (m : Nat), st.isProcessing = true →
        schedStep st (SchedEvent.send m true) = st) := by
  constructor
  · intro events
    exact (schedRun_inv events initSched (by decide)).1
  · intro st m h
    simp [schedStep, h]

/-- C3: a started generation (flag clear on entry) whose assistant-turn
appends complete never propagates a failure and appends exactly one
assistant reply: the pipeline reply, or the fixed apology when the pipeline
threw anywhere (local search, remote stage or offline stage). -/
theorem c3_failure_swallowed_apology :
    ∀ (msg : String) (ls : Except Unit (List DatabaseRecord))
      (remote : NetEnv ChatBotResponse),
      generateResponseRun msg
          { localSearch := ls, remote := remote,
            replyAppendOk := true, apologyAppendOk := true } false
        = { flagAfter := false
            appended := [resolvedReplyText msg { localSearch := ls, remote := remote }]
            propagated := false } := by
  intro msg ls remote
  cases hres : resolvePipeline msg { localSearch := ls, remote := remote } with
  | ok r => simp [generateResponseRun, resolvedReplyText, hres]
  | error e => simp [generateResponseRun, resolvedReplyText, hres]

/-- The remote reply used in the C4 counterexample. -/
def remoteReplyCE : ChatBotResponse :=
  { text := "Remote answer", confidence := 7/10, source := Source.api, relatedTopics := [] }

/-- A generation environment where the local store search throws while the
remote stage is connected and would answer successfully. -/
def envSearchThrows : GenEnv :=
  { localSearch := Except.error ()
    remote := { connectivity := Except.ok true, request := Except.ok remoteReplyCE }
    replyAppendOk := true
    apologyAppendOk := true }

/-- C4 (counterexample): when the store search throws, the resolver does
not fall through to the remote stage (nor to the offline stage) — even with
connectivity up and a successful remote answer available, the appended
reply is the fixed apology, not the remote payload and not the offline
generator output. -/
theorem c4_search_throw_counterexample :
    (generateResponseRun "refund" envSearchThrows false).appended = [apologyText] ∧
    decide ((generateResponseRun "refund" envSearchThrows false).appended
        = [remoteReplyCE.text]) = false ∧
    decide ((generateResponseRun "refund" envSearchThrows false).appended
        = [(generateMockResponse "refund").text]) = false := by
  refine ⟨rfl, by decide, by decide⟩

/-- C4 (amended): when the store search throws, the failure is caught by
the outer `catch` of `generateResponse` and converted into the fixed
apology reply; the remote and offline stages are skipped, and nothing is
surfaced to the caller — for every remote environment. -/
theorem c4_search_throw_amended :
    ∀ (msg : String) (remote : NetEnv ChatBotResponse) (rOk : Bool),
      generateResponseRun msg
          { localSearch := Except.error (), remote := remote,
            replyAppendOk := rOk, apologyAppendOk := true } false
        = { flagAfter := false, appended := [apologyText], propagated := false } := by
  intro msg remote rOk
  have hres : resolvePipeline msg { localSearch := Except.error (), remote := remote }
      = Except.error () := rfl
  simp [generateResponseRun, hres]

/-- A generation environment used by the C5 counterexample; its content is
irrelevant because the early no-op never reaches it. -/
def envBusy : GenEnv :=
  { localSearch := Except.ok []
    remote := { connectivity := Except.ok false, request := Except.error AxiosError.request }
    replyAppendOk := true
    apologyAppendOk := true }

/-- C5 (counterexample): a `generateResponse` invocation that enters on the
early no-op path (flag already set) completes with the flag still set, so
the flag is not clear after every completed invocation; the scheduler trace
with two queued timers shows the same reachable situation — after the
second timer fires as an early no-op, the flag is still set. -/
theorem c5_noop_flag_counterexample :
    (generateResponseRun "hello" envBusy true).flagAfter = true ∧
    decide ((generateResponseRun "hello" envBusy true).flagAfter = false) = false ∧
    (runSched [SchedEvent.send 1 true, SchedEvent.send 2 true,
               SchedEvent.fireTimer, SchedEvent.fireTimer]).isProcessing = true := by
  refine ⟨rfl, by decide, by decide⟩

/-- C5 (amended): the flag is released on every exit path of a started
generation — normal return, internal failure, and even a rejection that
escapes the `catch` — for every environment; an early no-op invocation
never touched the flag and leaves it exactly as it found it (set). -/
theorem c5_flag_cleared_amended :
    ∀ (msg : String) (env : GenEnv),
      (generateResponseRun msg env false).flagAfter = false ∧
      (generateResponseRun msg env true).flagAfter = true := by
  intro msg env
  constructor
  · cases hres : resolvePipeline msg { localSearch := env.localSearch, remote := env.remote } with
    | ok r =>
      cases hr : env.replyAppendOk with
      | true => simp [generateResponseRun, hres, hr]
      | false =>
        cases ha : env.apologyAppendOk with
        | true => simp [generateResponseRun, hres, hr, ha]
        | false => simp [generateResponseRun, hres, hr, ha]
    | error e =>
      cases ha : env.apologyAppendOk with
      | true => simp [generateResponseRun, hres, ha]
      | false => simp [generateResponseRun, hres, ha]
  · rfl

/-- C6: with no local candidate and no connectivity, input "hi" resolves to
the offline greeting reply — the fixed greeting text with confidence 0.9
and source `default` (spec provenance `offline`) — for every pending
request value; and for every input the offline generator confidence is
fixed per branch: 0.9 for the greeting branch, 0.8 for help, 0.9 for
thanks, 0.5 for the generic echo. -/
theorem c6_offline_greeting_and_confidences :
    (∀ req : Except AxiosError ChatBotResponse,
        resolvePipeline "hi"
            { localSearch := Except.ok []
              remote := { connectivity := Except.ok false, request := req } }
          = Except.ok greetingResponse) ∧
    greetingResponse.confidence = 9/10 ∧
    greetingResponse.source = Source.default ∧
    (∀ msg : String,
        (generateMockResponse msg).confidence =
          if strIncludes (lowerStr msg) "hello" || strIncludes (lowerStr msg) "hi" then 9/10
          else if strIncludes (lowerStr msg) "help" then 8/10
          else if strIncludes (lowerStr msg) "thank" then 9/10
          else 5/10) := by
  refine ⟨fun req => rfl, rfl, rfl, fun msg => ?_⟩
  unfold generateMockResponse
  cases h1 : strIncludes (lowerStr msg) "hello" || strIncludes (lowerStr msg) "hi" <;>
    cases h2 : strIncludes (lowerStr msg) "help" <;>
      cases h3 : strIncludes (lowerStr msg) "thank" <;>
        simp [h1, h2, h3, greetingResponse, helpResponse, thanksResponse, echoResponse]

/-- C7: in every session state reachable through `createNewSession` and
`sendMessage` appends under a monotone clock, `updatedAt` is at least the
timestamp of every contained message. -/
theorem c7_updatedAt_bounds_timestamps :
    ∀ s : ChatSession, ReachableSession s → ∀ m ∈ s.messages, m.timestamp ≤ s.updatedAt := by
  intro s hs
  induction hs with
  | created sessionId title now =>
    intro m hm
    simp [createNewSession] at hm
  | sent s msgId text isUser tMsg tUpd hs hclock hstep ih =>
    intro m hm
    simp only [appendMessage, List.mem_append, List.mem_singleton] at hm
    rcases hm with hm | hm
    · exact le_trans (le_trans (ih m hm) hclock) hstep
    · rw [hm]
      exact hstep

/-- C7 witness: a concrete reachable session — created at time 10, one
message appended with timestamp 11 and update time 12 — satisfies the
bound for its message. -/
theorem c7_updatedAt_bounds_timestamps_witness :
    ({ id := "m1", text := "hi there", isUser := true, timestamp := 11 } : Message).timestamp
      ≤ (appendMessage (createNewSession "s1" none 10) "m1" "hi there" true 11 12).updatedAt :=
  c7_updatedAt_bounds_timestamps _
    (ReachableSession.sent (createNewSession "s1" none 10) "m1" "hi there" true 11 12
      (ReachableSession.created "s1" none 10) (by decide) (by decide))
    _ (by decide)

/-- C8 (counterexample): when `DatabaseService.getChatSessions` throws,
`loadSession` does not surface the storage failure — it returns the
non-error value `none`, indistinguishable from a lookup miss. -/
theorem c8_loadSession_swallows_counterexample :
    loadSessionOp { saveMessageOk := true, saveSessionOk := true,
                    sessionsResult := Except.error () } "session_1"
      = Except.ok none ∧
    isStoreError (loadSessionOp { saveMessageOk := true, saveSessionOk := true,
                                  sessionsResult := Except.error () } "session_1")
      = false :=
  ⟨rfl, rfl⟩

/-- C8 (amended): `createNewSession`, `sendMessage` (on either of its two
storage writes) and `getAllSessions` propagate a storage failure to their
caller; `loadSession` alone catches it and returns the not-found value
`none` instead of an error. -/
theorem c8_storage_failure_amended :
    (∀ (sessionId : String) (title : Option String) (now : Nat) (mOk : Bool)
        (sessions : Except Unit (List ChatSession)),
      isStoreError (createNewSessionOp
          { saveMessageOk := mOk, saveSessionOk := false, sessionsResult := sessions }
          sessionId title now) = true) ∧
    (∀ (s : ChatSession) (msgId text : String) (isUser : Bool) (tMsg tUpd : Nat)
        (sOk : Bool) (sessions : Except Unit (List ChatSession)),
      isStoreError (sendMessageStorage
          { saveMessageOk := false, saveSessionOk := sOk, sessionsResult := sessions }
          s msgId text isUser tMsg tUpd) = true) ∧
    (∀ (s : ChatSession) (msgId text : String) (isUser : Bool) (tMsg tUpd : Nat)
        (sessions : Except Unit (List ChatSession)),
      isStoreError (sendMessageStorage
          { saveMessageOk := true, saveSessionOk := false, sessionsResult := sessions }
          s msgId text isUser tMsg tUpd) = true) ∧
    (∀ mOk sOk : Bool,
      isStoreError (getAllSessionsOp
          { saveMessageOk := mOk, saveSessionOk := sOk, sessionsResult := Except.error () })
        = true) ∧
    (∀ (sessionId : String) (mOk sOk : Bool),
      loadSessionOp
          { saveMessageOk := mOk, saveSessionOk := sOk, sessionsResult := Except.error () }
          sessionId
        = Except.ok none) :=
  ⟨fun _ _ _ _ _ => rfl, fun _ _ _ _ _ _ _ _ => rfl, fun _ _ _ _ _ _ _ => rfl,
   fun _ _ => rfl, fun _ _ _ => rfl⟩

/-- C9: every public remote call is total — the top-level `catch` means the
caller always receives an `ApiResponse` value. On a missing connection the
call returns the fixed no-connection result; on a thrown request (server
error, network error, timeout) or a thrown connectivity check it returns
`handleApiError` of the failure; and every such failure result carries
`success = false` with a non-empty error description. -/
theorem c9_remote_calls_total :
    (∀ e : AxiosError, (@handleApiError ChatBotResponse e).success = false ∧
        0 < (@handleApiError ChatBotResponse e).error.length) ∧
    ((@noConnectionResponse ChatBotResponse).success = false ∧
        0 < (@noConnectionResponse ChatBotResponse).error.length) ∧
    (∀ req : Except AxiosError ChatBotResponse,
        getChatbotResponse { connectivity := Except.ok false, request := req }
          = noConnectionResponse) ∧
    (∀ e : AxiosError,
        getChatbotResponse { connectivity := Except.ok true, request := Except.error e }
          = handleApiError e) ∧
    (∀ (e : AxiosError) (req : Except AxiosError ChatBotResponse),
        getChatbotResponse { connectivity := Except.error e, request := req }
          = handleApiError e) ∧
    (∀ req : Except AxiosError (List DatabaseRecord),
        searchCompanyDataRemote { connectivity := Except.ok false, request := req }
          = noConnectionResponse) ∧
    (∀ e : AxiosError,
        searchCompanyDataRemote { connectivity := Except.ok true, request := Except.error e }
          = handleApiError e) ∧
    (∀ req : Except AxiosError String,
        uploadAudioFile { connectivity := Except.ok false, request := req }
          = noConnectionResponse) ∧
    (∀ e : AxiosError,
        uploadAudioFile { connectivity := Except.ok true, request := Except.error e }
          = handleApiError e) ∧
    (∀ req : Except AxiosError (List DatabaseRecord),
        syncLocalData { connectivity := Except.ok false, request := req }
          = noConnectionResponse) ∧
    (∀ e : AxiosError,
        syncLocalData { connectivity := Except.ok true, request := Except.error e }
          = handleApiError e) := by
  refine ⟨?_, ⟨rfl, by decide⟩, fun _ => rfl, fun _ => rfl, fun _ _ => rfl,
    fun _ => rfl, fun _ => rfl, fun _ => rfl, fun _ => rfl, fun _ => rfl, fun _ => rfl⟩
  intro e
  cases e with
  | response status dataMessage =>
    refine ⟨rfl, ?_⟩
    have ha : ("Server error: ").length = 14 := rfl
    show 0 < ("Server error: " ++ toString status).length
    rw [strLength_append, ha]
    omega
  | request => exact ⟨rfl, by decide⟩
  | other msg =>
    refine ⟨rfl, ?_⟩
    show 0 < ("Request failed").length
    decide

/-- C10: every input whose lower-cased text contains "hi" anywhere — also
inside an unrelated word — takes the greeting branch of the offline
generator, with priority over the help and thank triggers. -/
theorem c10_hi_substring_greeting :
    ∀ msg : String, strIncludes (lowerStr msg) "hi" = true →
      generateMockResponse msg = greetingResponse := by
  intro msg h
  unfold generateMockResponse
  simp [h]

/-- C10 witness: the input "This HELP thank you" contains "hi" only inside
the word "This" and also contains the help and thank triggers, yet the
offline generator returns the greeting reply. -/
theorem c10_hi_substring_greeting_witness :
    generateMockResponse "This HELP thank you" = greetingResponse :=
  c10_hi_substring_greeting "This HELP thank you" (by decide)

end ChatBot
